import Mathlib

set_option maxRecDepth 8000

/-
Verification of the EOL (end-of-life) utilities module `eol_utils.py`.

The module is embedded shallowly:
  * a Python `datetime` (always UTC in this code) is a six-field record
    compared lexicographically, which coincides with chronological order
    for valid calendar datetimes;
  * `datetime.strptime` for the two formats used by the code
    ("%Y-%m-%dT%H:%M:%SZ" and "%Y-%m-%d") is an executable parser
    returning `Option`, `none` standing for the raised `ValueError`;
  * the distro-info CSV file is passed explicitly as its first (header)
    line plus the remaining data lines (each line given without its
    trailing newline character);
  * raised exceptions become `Except PyError`, with the two `raise
    ValueError` sites of `get_base_eol` tagged `notFound` and the
    `strptime` failures tagged `parseError`;
  * the system-clock read of `is_track_eol` becomes an explicit `now`
    parameter; logging calls are side effects outside the embedding and
    are dropped.
-/

/-- A Python `datetime` value with `tzinfo=timezone.utc`. -/
structure PyDatetime where
  year : Nat
  month : Nat
  day : Nat
  hour : Nat
  minute : Nat
  second : Nat
deriving DecidableEq, Repr

/-- Python `datetime` comparison: lexicographic on the fields, which is
chronological order for valid (range-checked) datetimes in a common zone. -/
def PyDatetime.lt (a b : PyDatetime) : Bool :=
  if a.year != b.year then Nat.blt a.year b.year
  else if a.month != b.month then Nat.blt a.month b.month
  else if a.day != b.day then Nat.blt a.day b.day
  else if a.hour != b.hour then Nat.blt a.hour b.hour
  else if a.minute != b.minute then Nat.blt a.minute b.minute
  else Nat.blt a.second b.second

/-- Gregorian leap-year test, as in Python's `calendar.isleap`. -/
def isLeapYear (y : Nat) : Bool :=
  (y % 4 == 0 && y % 100 != 0) || y % 400 == 0

/-- Days in a month, as enforced by the `datetime` constructor. -/
def daysInMonth (y m : Nat) : Nat :=
  if m == 2 then (if isLeapYear y then 29 else 28)
  else if m == 4 || m == 6 || m == 9 || m == 11 then 30
  else 31

/-- Range checks of the Python `datetime` constructor (MINYEAR = 1,
MAXYEAR = 9999); out-of-range fields raise `ValueError`, here `none`. -/
def mkValidDatetime (y mo d h mi s : Nat) : Option PyDatetime :=
  if 1 ≤ y && y ≤ 9999 && 1 ≤ mo && mo ≤ 12 && 1 ≤ d && d ≤ daysInMonth y mo
      && h ≤ 23 && mi ≤ 59 && s ≤ 59
  then some ⟨y, mo, d, h, mi, s⟩ else none

/-- Numeric value of a run of decimal digit characters. -/
def digitsVal (ds : List Char) : Nat :=
  ds.foldl (fun n c => 10 * n + (c.toNat - 48)) 0

/-- Read a maximal run of `lo`-to-`hi` digits, as the `strptime` regex
fragments (`\d\d\d\d` for %Y, `\d\d?` value-bounded for the others) do when
followed by a non-digit literal. -/
def readNum (lo hi : Nat) (cs : List Char) : Option (Nat × List Char) :=
  let ds := cs.takeWhile Char.isDigit
  let rest := cs.dropWhile Char.isDigit
  if lo ≤ ds.length && ds.length ≤ hi then some (digitsVal ds, rest) else none

/-- Consume one expected literal character. -/
def expectChar (c : Char) : List Char → Option (List Char)
  | [] => none
  | x :: xs => if x == c then some xs else none

/-- Lex the six numeric fields of "%Y-%m-%dT%H:%M:%SZ". -/
def parseYmdHms (s : String) : Option (Nat × Nat × Nat × Nat × Nat × Nat) := do
  let (y, cs) ← readNum 4 4 s.data
  let cs ← expectChar '-' cs
  let (mo, cs) ← readNum 1 2 cs
  let cs ← expectChar '-' cs
  let (d, cs) ← readNum 1 2 cs
  let cs ← expectChar 'T' cs
  let (h, cs) ← readNum 1 2 cs
  let cs ← expectChar ':' cs
  let (mi, cs) ← readNum 1 2 cs
  let cs ← expectChar ':' cs
  let (sec, cs) ← readNum 1 2 cs
  let cs ← expectChar 'Z' cs
  if cs.isEmpty then some (y, mo, d, h, mi, sec) else none

/-- Lex the three numeric fields of "%Y-%m-%d". -/
def parseYmd (s : String) : Option (Nat × Nat × Nat) := do
  let (y, cs) ← readNum 4 4 s.data
  let cs ← expectChar '-' cs
  let (mo, cs) ← readNum 1 2 cs
  let cs ← expectChar '-' cs
  let (d, cs) ← readNum 1 2 cs
  if cs.isEmpty then some (y, mo, d) else none

/-- `datetime.strptime(s, EOL_TRACK_FMT).replace(tzinfo=timezone.utc)`:
parse the track timestamp format "%Y-%m-%dT%H:%M:%SZ". -/
def strptimeTrack (s : String) : Option PyDatetime :=
  match parseYmdHms s with
  | some (y, mo, d, h, mi, sec) => mkValidDatetime y mo d h mi sec
  | none => none

/-- `datetime.strptime(s, EOL_DISTRO_FMT).replace(tzinfo=timezone.utc)`:
parse the distro date format "%Y-%m-%d"; time-of-day is midnight. -/
def strptimeDistro (s : String) : Option PyDatetime :=
  match parseYmd s with
  | some (y, mo, d) => mkValidDatetime y mo d 0 0 0
  | none => none

/-- Zero-pad a field to two digits, as `strftime` %m and %d do. -/
def pad2 (n : Nat) : String :=
  if n < 10 then "0" ++ toString n else toString n

/-- `datetime.strftime(EOL_DISTRO_FMT)`: render the date-only form
"%Y-%m-%d", dropping any time-of-day. -/
def strftimeDate (t : PyDatetime) : String :=
  toString t.year ++ "-" ++ pad2 t.month ++ "-" ++ pad2 t.day

/-- Python `str.split(sep)` for a one-character separator. -/
def splitOnChar (sep : Char) : List Char → List (List Char)
  | [] => [[]]
  | c :: rest =>
    let r := splitOnChar sep rest
    if c == sep then [] :: r
    else
      match r with
      | [] => [[c]]
      | h :: t => (c :: h) :: t

/-- Python `s.split(sep)` on strings, one-character separator. -/
def pySplitOn (s : String) (sep : Char) : List String :=
  (splitOnChar sep s.data).map String.mk

/-- The ASCII whitespace characters removed by Python `str.strip()`. -/
def isPySpace (c : Char) : Bool :=
  c == ' ' || c == '\t' || c == '\n' || c == '\r' || c == '\x0b' || c == '\x0c'

/-- Python `str.strip()`. -/
def pyStrip (s : String) : String :=
  String.mk (((s.data.dropWhile isPySpace).reverse.dropWhile isPySpace).reverse)

/-- Python `s.startswith(p)`. -/
def pyStartsWith (s p : String) : Bool :=
  p.data.isPrefixOf s.data

/-- Python `sep.join(items)`. -/
def joinWith (sep : String) : List String → String
  | [] => ""
  | [x] => x
  | x :: y :: ys => x ++ sep ++ joinWith sep (y :: ys)

/-- Python `dict(zip(keys, values))` represented as the zipped pairs
(`zip` truncates to the shorter list, as in Python). -/
def zipDict (keys vals : List String) : List (String × String) :=
  List.zip keys vals

/-- Lookup in a `dict(zip(...))`: a later binding of the same key
overwrites an earlier one, so the last matching pair wins. -/
def dictLookup (d : List (String × String)) (k : String) : Option String :=
  (d.reverse.find? (fun p => p.1 == k)).map Prod.snd

/-- Module constant `UBUNTU_DISTRO_INFO`. -/
def UBUNTU_DISTRO_INFO : String := "/usr/share/distro-info/ubuntu.csv"

/-- Module constant `EOL_TRACK_FMT` (track EOL strfmt). -/
def EOL_TRACK_FMT : String := "%Y-%m-%dT%H:%M:%SZ"

/-- Module constant `EOL_DISTRO_FMT` (distro info strfmt). -/
def EOL_DISTRO_FMT : String := "%Y-%m-%d"

/-- The exceptions this module can raise. Both are `ValueError` in Python;
they are tagged by raise site: `notFound` for the two explicit raises in
`get_base_eol`, `parseError` for a failing `datetime.strptime`. -/
inductive PyError where
  | notFound (msg : String)
  | parseError (msg : String)
deriving DecidableEq, Repr

/-- Contents of the distro-info CSV feed: the header line (read by
`next(distro_info)`) and the remaining data lines, without trailing
newline characters. -/
structure DistroFeed where
  header : String
  rows : List String
deriving DecidableEq, Repr

/-- The violation dictionary built by `track_eol_exceeds_base_eol` with
keys `track`, `base`, `track_eol`, `base_eol`. -/
structure ViolationRecord where
  track : String
  base : String
  track_eol : String
  base_eol : String
deriving DecidableEq, Repr

/-- Embedding of `is_track_eol` (eol_utils.py lines 27-50).  The dict
access `track_value.get('end-of-life')` is `dictLookup`; the system-clock
read `datetime.now(timezone.utc)` is the explicit parameter `now`; the
`track_name` argument only feeds log messages and is dropped. -/
def is_track_eol (track_value : List (String × String)) (now : PyDatetime) :
    Except PyError Bool :=
  match dictLookup track_value "end-of-life" with
  | none => .ok true
  | some eol_str =>
    match strptimeTrack eol_str with
    | none => .error (.parseError ("time data " ++ eol_str ++
        " does not match format " ++ EOL_TRACK_FMT))
    | some eol_date => .ok (PyDatetime.lt eol_date now)

/-- Embedding of `get_base_eol` (eol_utils.py lines 53-84).  The file
open/iteration is replaced by the explicit `feed` contents; `eol_target`
is passed explicitly (the Python default is `'eol'`). -/
def get_base_eol (feed : DistroFeed) (base : String) (eol_target : String) :
    Except PyError PyDatetime :=
  let headers := pySplitOn (pyStrip feed.header) ','
  let valid_distro := (feed.rows.filter (fun row => pyStartsWith row base)).map
      (fun row => zipDict headers (pySplitOn (pyStrip row) ','))
  match valid_distro with
  | [] => .error (.notFound ("Base image " ++ base ++ " not found in " ++
      UBUNTU_DISTRO_INFO))
  | distro :: _ =>
    match dictLookup distro eol_target with
    | none => .error (.notFound ("Base image " ++ base ++ " does not have " ++
        eol_target))
    | some s =>
      match strptimeDistro s with
      | some d => .ok d
      | none => .error (.parseError ("time data " ++ s ++
          " does not match format " ++ EOL_DISTRO_FMT))

/-- One markdown table row of the generator expression in
`generate_base_eol_exceed_warning` (eol_utils.py lines 97-100). -/
def violationRow (build : ViolationRecord) : String :=
  "| " ++ build.track ++ " | " ++ build.base ++ " | " ++ build.track_eol ++
    " | " ++ build.base_eol ++ " |"

/-- Embedding of `generate_base_eol_exceed_warning`
(eol_utils.py lines 86-110). -/
def generate_base_eol_exceed_warning (tracks_eol_exceed_base_eol : List ViolationRecord) :
    String × String :=
  let table_records := tracks_eol_exceed_base_eol.map violationRow
  let title := "Found tracks with EOL date exceeding base image\x27s EOL date"
  let body := "Following tracks have an EOL date that exceeds the base image\x27s EOL date:\n"
    ++ "| Track | Base | Track EOL Date | Base EOL Date |\n"
    ++ "|-------|------|----------------|---------------|\n"
    ++ joinWith "\n" table_records
    ++ "\nPlease check the EOL date of the base image and the track.\n"
  (title, body)

/-- Core of the pattern `^(\d{1,2}\.\d{1,2})$` matched against a whole
string, greedy runs bounded by the following literal. -/
def matchVersionCore (cs : List Char) : Bool :=
  let d1 := cs.takeWhile Char.isDigit
  let r1 := cs.dropWhile Char.isDigit
  (1 ≤ d1.length && d1.length ≤ 2) &&
    match r1 with
    | '.' :: r2 =>
      let d2 := r2.takeWhile Char.isDigit
      let r3 := r2.dropWhile Char.isDigit
      (1 ≤ d2.length && d2.length ≤ 2) && r3.isEmpty
    | _ => false

/-- `VERSION_ID_REGEX.match(s)` as a Boolean: Python `re` also lets `$`
match just before one trailing newline, hence the second disjunct. -/
def reMatchVersionId (s : String) : Bool :=
  matchVersionCore s.data ||
    (s.data.getLastD ' ' == '\n' && matchVersionCore s.data.dropLast)

/-- The base-version resolution step of `track_eol_exceeds_base_eol`
(eol_utils.py lines 125-131): `if not base` treats `None` and the empty
string alike; without a base the version id is the text after the last
`-` of the track name, checked against `VERSION_ID_REGEX` (`none` result
models the early `return None`); with a base it is the text after the
last `:`, unchecked. -/
def resolveBaseVersion (track : String) (base : Option String) : Option String :=
  if base.getD "" = "" then
    let base_version_id := (pySplitOn track '-').getLastD ""
    if reMatchVersionId base_version_id then some base_version_id else none
  else
    some ((pySplitOn (base.getD "") ':').getLastD "")

/-- The comparison-and-report step of `track_eol_exceeds_base_eol`
(eol_utils.py lines 133-148), after a base version id has been
resolved. -/
def eolCheckCore (feed : DistroFeed) (track track_eol base_version_id : String) :
    Except PyError (Option ViolationRecord) :=
  match get_base_eol feed base_version_id "eol" with
  | .error e => .error e
  | .ok base_eol =>
    match strptimeTrack track_eol with
    | none => .error (.parseError ("time data " ++ track_eol ++
        " does not match format " ++ EOL_TRACK_FMT))
    | some eol_date =>
      if PyDatetime.lt base_eol eol_date then
        .ok (some { track := track, base := "ubuntu:" ++ base_version_id,
                    track_eol := strftimeDate eol_date,
                    base_eol := strftimeDate base_eol })
      else
        .ok none

/-- Embedding of `track_eol_exceeds_base_eol` (eol_utils.py lines
113-148), composed of its two halves `resolveBaseVersion` and
`eolCheckCore`; `.ok none` is the Python `return None`. -/
def track_eol_exceeds_base_eol (feed : DistroFeed) (track : String)
    (track_eol : String) (base : Option String) :
    Except PyError (Option ViolationRecord) :=
  match resolveBaseVersion track base with
  | none => .ok none
  | some base_version_id => eolCheckCore feed track track_eol base_version_id

/-- Splitting a separator-free string yields that string alone. -/
theorem splitOnChar_of_not_mem (sep : Char) (xs : List Char) (h : sep ∉ xs) :
    splitOnChar sep xs = [xs] := by
  induction xs with
  | nil => rfl
  | cons c rest ih =>
    rw [List.mem_cons, not_or] at h
    have hcs : (c == sep) = false := beq_eq_false_iff_ne.mpr (fun hc => h.1 hc.symm)
    simp [splitOnChar, hcs, ih h.2]

/-- Splitting past a leading separator emits one empty field. -/
theorem splitOnChar_cons_self (sep : Char) (xs : List Char) :
    splitOnChar sep (sep :: xs) = [] :: splitOnChar sep xs := by
  simp [splitOnChar]

/-- Splitting a separator-free chunk followed by a separator peels the
chunk off as the first field. -/
theorem splitOnChar_append_sep (sep : Char) (xs ys : List Char) (h : sep ∉ xs) :
    splitOnChar sep (xs ++ sep :: ys) = xs :: splitOnChar sep ys := by
  induction xs with
  | nil => simp [splitOnChar]
  | cons c rest ih =>
    rw [List.mem_cons, not_or] at h
    have hcs : (c == sep) = false := beq_eq_false_iff_ne.mpr (fun hc => h.1 hc.symm)
    simp [splitOnChar, hcs, ih h.2]

/-- Splitting a newline-join of newline-free pieces followed by a newline
recovers exactly the pieces, in order. -/
theorem splitOnChar_join (tail : List Char) :
    ∀ rows : List String, rows ≠ [] → (∀ r ∈ rows, '\n' ∉ r.data) →
    splitOnChar '\n' ((joinWith "\n" rows).data ++ '\n' :: tail) =
      rows.map String.data ++ splitOnChar '\n' tail := by
  intro rows
  induction rows with
  | nil => intro hne _; cases hne rfl
  | cons x xs ih =>
    intro _ h
    cases xs with
    | nil =>
      simpa [joinWith] using
        splitOnChar_append_sep '\n' x.data tail (h x (List.mem_cons_self x _))
    | cons y ys =>
      have hx : '\n' ∉ x.data := h x (List.mem_cons_self x _)
      have hrest : ∀ r ∈ y :: ys, '\n' ∉ r.data := fun r hr => h r (by simp [hr])
      have hd : (joinWith "\n" (x :: y :: ys)).data =
          x.data ++ '\n' :: (joinWith "\n" (y :: ys)).data := by
        show ((x ++ "\n") ++ joinWith "\n" (y :: ys)).data = _
        rw [String.data_append, String.data_append]
        simp [List.append_assoc]
      rw [hd, List.append_assoc, List.cons_append,
        splitOnChar_append_sep '\n' x.data _ hx,
        ih (by simp) hrest]
      rfl

/-- A successfully parsed distro date has time-of-day zero: the parse
result is normalized to UTC midnight. -/
theorem strptimeDistro_midnight (s : String) (dts : PyDatetime)
    (h : strptimeDistro s = some dts) :
    dts.hour = 0 ∧ dts.minute = 0 ∧ dts.second = 0 := by
  unfold strptimeDistro at h
  cases hp : parseYmd s with
  | none => simp [hp] at h
  | some y =>
    obtain ⟨y1, mo, d⟩ := y
    simp only [hp] at h
    unfold mkValidDatetime at h
    split at h
    · rw [Option.some.injEq] at h
      subst h
      exact ⟨rfl, rfl, rfl⟩
    · cases h

/-- When `eolCheckCore` reports a violation, the record is determined by
the track name, the resolved version id, the parsed track timestamp and
the base EOL. -/
theorem eolCheckCore_ok_some (feed : DistroFeed) (track ts v : String)
    (r : ViolationRecord) (t d : PyDatetime)
    (hbase : get_base_eol feed v "eol" = .ok d)
    (hts : strptimeTrack ts = some t)
    (hr : eolCheckCore feed track ts v = .ok (some r)) :
    r = { track := track, base := "ubuntu:" ++ v,
          track_eol := strftimeDate t, base_eol := strftimeDate d } := by
  unfold eolCheckCore at hr
  simp only [hbase, hts] at hr
  split at hr
  · injection hr with h2
    injection h2 with h3
    exact h3.symm
  · simp at hr

/-- C1: for every track name, track EOL string of the track timestamp
format, and resolvable base version, `track_eol_exceeds_base_eol` returns
a violation record exactly when the track timestamp parsed from
`track_eol` is strictly later than the base EOL (a date interpreted at
UTC midnight), and returns null (`.ok none`) otherwise. -/
theorem C1_violation_iff_strictly_later (feed : DistroFeed)
    (track ts v : String) (base : Option String) (t d : PyDatetime)
    (hres : resolveBaseVersion track base = some v)
    (hbase : get_base_eol feed v "eol" = .ok d)
    (hts : strptimeTrack ts = some t) :
    ((∃ r, track_eol_exceeds_base_eol feed track ts base = .ok (some r)) ↔
      PyDatetime.lt d t = true) ∧
    (track_eol_exceeds_base_eol feed track ts base = .ok none ↔
      PyDatetime.lt d t = false) := by
  cases hlt : PyDatetime.lt d t <;>
    simp [track_eol_exceeds_base_eol, hres, eolCheckCore, hbase, hts, hlt]

/-- C1 witness: the spec example, a track EOL of one second past midnight
on 2024-04-30 against a base whose EOL date is 2024-04-30 (midnight), is
a violation. -/
theorem C1_witness :
    strptimeTrack "2024-04-30T00:00:01Z" = some ⟨2024, 4, 30, 0, 0, 1⟩ ∧
    get_base_eol
      ⟨"version,codename,series,created,release,eol",
        ["24.04 LTS,Noble Numbat,noble,2023-10-12,2024-04-25,2024-04-30"]⟩
      "24.04" "eol" = .ok ⟨2024, 4, 30, 0, 0, 0⟩ ∧
    ∃ r, track_eol_exceeds_base_eol
      ⟨"version,codename,series,created,release,eol",
        ["24.04 LTS,Noble Numbat,noble,2023-10-12,2024-04-25,2024-04-30"]⟩
      "1.0-24.04" "2024-04-30T00:00:01Z" none = .ok (some r) := by
  refine ⟨rfl, rfl, ?_⟩
  exact (C1_violation_iff_strictly_later
    ⟨"version,codename,series,created,release,eol",
      ["24.04 LTS,Noble Numbat,noble,2023-10-12,2024-04-25,2024-04-30"]⟩
    "1.0-24.04" "2024-04-30T00:00:01Z" "24.04" none
    ⟨2024, 4, 30, 0, 0, 1⟩ ⟨2024, 4, 30, 0, 0, 0⟩ rfl rfl rfl).1.mpr rfl

/-- C2: if the end-of-life key is absent, `is_track_eol` returns true;
otherwise, for a well-formed timestamp, it returns true exactly when the
parsed time is strictly before the current instant `now` (so false when
equal and false when strictly later). -/
theorem C2_is_track_eol_spec (track_value : List (String × String))
    (now t : PyDatetime) (s : String) :
    (dictLookup track_value "end-of-life" = none →
      is_track_eol track_value now = .ok true) ∧
    (dictLookup track_value "end-of-life" = some s → strptimeTrack s = some t →
      is_track_eol track_value now = .ok (PyDatetime.lt t now)) := by
  constructor
  · intro h; simp [is_track_eol, h]
  · intro h hp; simp [is_track_eol, h, hp]

/-- C2 witness: a strictly-past EOL gives true, a strictly-future EOL
gives false, an EOL equal to now gives false, and a record without the
end-of-life key gives true. -/
theorem C2_witness :
    is_track_eol [("end-of-life", "2020-01-01T00:00:00Z")] ⟨2026, 1, 1, 0, 0, 0⟩
      = .ok true ∧
    is_track_eol [("end-of-life", "2031-01-01T00:00:00Z")] ⟨2026, 1, 1, 0, 0, 0⟩
      = .ok false ∧
    is_track_eol [("end-of-life", "2026-01-01T00:00:00Z")] ⟨2026, 1, 1, 0, 0, 0⟩
      = .ok false ∧
    is_track_eol [("name", "x")] ⟨2026, 1, 1, 0, 0, 0⟩ = .ok true := by
  refine ⟨?_, ?_, ?_, ?_⟩
  · exact (C2_is_track_eol_spec [("end-of-life", "2020-01-01T00:00:00Z")]
      ⟨2026, 1, 1, 0, 0, 0⟩ ⟨2020, 1, 1, 0, 0, 0⟩ "2020-01-01T00:00:00Z").2 rfl rfl
  · exact (C2_is_track_eol_spec [("end-of-life", "2031-01-01T00:00:00Z")]
      ⟨2026, 1, 1, 0, 0, 0⟩ ⟨2031, 1, 1, 0, 0, 0⟩ "2031-01-01T00:00:00Z").2 rfl rfl
  · exact (C2_is_track_eol_spec [("end-of-life", "2026-01-01T00:00:00Z")]
      ⟨2026, 1, 1, 0, 0, 0⟩ ⟨2026, 1, 1, 0, 0, 0⟩ "2026-01-01T00:00:00Z").2 rfl rfl
  · exact (C2_is_track_eol_spec [("name", "x")]
      ⟨2026, 1, 1, 0, 0, 0⟩ ⟨2026, 1, 1, 0, 0, 0⟩ "x").1 rfl

/-- C5: when no base is supplied and the segment of the track name after
the last dash does not match the version pattern, the function returns
null without raising, for every feed (hence without consulting the
feed). -/
theorem C5_alias_track_skipped (feed : DistroFeed) (track ts : String)
    (h : reMatchVersionId ((pySplitOn track '-').getLastD "") = false) :
    track_eol_exceeds_base_eol feed track ts none = .ok none := by
  simp [track_eol_exceeds_base_eol, resolveBaseVersion, h,
    -List.getLastD_eq_getLast?]

/-- C5 witness: the aliased track name "latest" is skipped. -/
theorem C5_witness :
    reMatchVersionId ((pySplitOn "latest" '-').getLastD "") = false ∧
    track_eol_exceeds_base_eol
      ⟨"version,codename,series,created,release,eol",
        ["22.04 LTS,Jammy Jellyfish,jammy,2021-10-14,2022-04-21,2027-04-01"]⟩
      "latest" "2030-01-01T00:00:00Z" none = .ok none := by
  refine ⟨rfl, ?_⟩
  exact C5_alias_track_skipped
    ⟨"version,codename,series,created,release,eol",
      ["22.04 LTS,Jammy Jellyfish,jammy,2021-10-14,2022-04-21,2027-04-01"]⟩
    "latest" "2030-01-01T00:00:00Z" rfl

/-- C6: once a base version resolves, any error of the base-EOL lookup is
propagated unchanged, and a malformed track EOL timestamp propagates a
parse error; nothing is caught. -/
theorem C6_errors_propagate (feed : DistroFeed) (track ts v : String)
    (base : Option String) (e : PyError)
    (hres : resolveBaseVersion track base = some v) :
    (get_base_eol feed v "eol" = .error e →
      track_eol_exceeds_base_eol feed track ts base = .error e) ∧
    (∀ d, get_base_eol feed v "eol" = .ok d → strptimeTrack ts = none →
      track_eol_exceeds_base_eol feed track ts base =
        .error (.parseError ("time data " ++ ts ++ " does not match format " ++
          EOL_TRACK_FMT))) := by
  constructor
  · intro h; simp [track_eol_exceeds_base_eol, hres, eolCheckCore, h]
  · intro d h hp; simp [track_eol_exceeds_base_eol, hres, eolCheckCore, h, hp]

/-- C6 witness: a base version absent from the feed propagates the
not-found error; a malformed track timestamp propagates a parse error. -/
theorem C6_witness :
    track_eol_exceeds_base_eol
      ⟨"version,codename,series,created,release,eol", []⟩
      "1.0-22.04" "2030-01-01T00:00:00Z" none =
      .error (.notFound
        "Base image 22.04 not found in /usr/share/distro-info/ubuntu.csv") ∧
    track_eol_exceeds_base_eol
      ⟨"version,codename,series,created,release,eol",
        ["22.04 LTS,Jammy Jellyfish,jammy,2021-10-14,2022-04-21,2027-04-01"]⟩
      "1.0-22.04" "BAD" none =
      .error (.parseError "time data BAD does not match format %Y-%m-%dT%H:%M:%SZ") := by
  constructor
  · exact (C6_errors_propagate
      ⟨"version,codename,series,created,release,eol", []⟩
      "1.0-22.04" "2030-01-01T00:00:00Z" "22.04" none
      (.notFound "Base image 22.04 not found in /usr/share/distro-info/ubuntu.csv")
      rfl).1 rfl
  · exact (C6_errors_propagate
      ⟨"version,codename,series,created,release,eol",
        ["22.04 LTS,Jammy Jellyfish,jammy,2021-10-14,2022-04-21,2027-04-01"]⟩
      "1.0-22.04" "BAD" "22.04" none
      (.notFound "unused") rfl).2 ⟨2027, 4, 1, 0, 0, 0⟩ rfl rfl

/-- C10: an empty-string base argument behaves exactly like an omitted
base, both for the full check and for base-version resolution. -/
theorem C10_empty_base_like_none (feed : DistroFeed) (track ts : String) :
    track_eol_exceeds_base_eol feed track ts (some "") =
      track_eol_exceeds_base_eol feed track ts none ∧
    resolveBaseVersion track (some "") = resolveBaseVersion track none :=
  ⟨rfl, rfl⟩

/-- C3: `get_base_eol` selects the data rows whose raw text begins with
the literal base prefix, takes the first matching row in feed order, and
returns the value of the requested EOL column parsed as a date at UTC
midnight. -/
theorem C3_first_prefix_match_wins (feed : DistroFeed)
    (base eol_target row s : String) (rest : List String) (dts : PyDatetime)
    (hfilter : feed.rows.filter (fun r => pyStartsWith r base) = row :: rest)
    (hlook : dictLookup (zipDict (pySplitOn (pyStrip feed.header) ',')
      (pySplitOn (pyStrip row) ',')) eol_target = some s)
    (hparse : strptimeDistro s = some dts) :
    get_base_eol feed base eol_target = .ok dts ∧
    dts.hour = 0 ∧ dts.minute = 0 ∧ dts.second = 0 := by
  refine ⟨?_, strptimeDistro_midnight s dts hparse⟩
  simp [get_base_eol, hfilter, hlook, hparse]

/-- C3 witness: with both a "22.04" and a "22.10" row present, the loose
prefix "22" matches the first-listed row, whose eol column is
2027-04-01. -/
theorem C3_witness :
    get_base_eol
      ⟨"version,codename,series,created,release,eol",
        ["22.04 LTS,Jammy Jellyfish,jammy,2021-10-14,2022-04-21,2027-04-01",
         "22.10,Kinetic Kudu,kinetic,2022-04-21,2022-10-20,2023-07-20"]⟩
      "22" "eol" = .ok ⟨2027, 4, 1, 0, 0, 0⟩ :=
  (C3_first_prefix_match_wins
    ⟨"version,codename,series,created,release,eol",
      ["22.04 LTS,Jammy Jellyfish,jammy,2021-10-14,2022-04-21,2027-04-01",
       "22.10,Kinetic Kudu,kinetic,2022-04-21,2022-10-20,2023-07-20"]⟩
    "22" "eol" "22.04 LTS,Jammy Jellyfish,jammy,2021-10-14,2022-04-21,2027-04-01"
    "2027-04-01" ["22.10,Kinetic Kudu,kinetic,2022-04-21,2022-10-20,2023-07-20"]
    ⟨2027, 4, 1, 0, 0, 0⟩ rfl rfl rfl).1

/-- C4: `get_base_eol` fails with the not-found error exactly when no
data row begins with the base prefix or the first matching row's column
mapping lacks the requested EOL column; when the first matching row has
the column and its value is a well-formed date, it returns normally. -/
theorem C4_notfound_exactly_two_cases (feed : DistroFeed)
    (base eol_target : String) :
    ((∃ msg, get_base_eol feed base eol_target = .error (.notFound msg)) ↔
      (feed.rows.filter (fun r => pyStartsWith r base) = [] ∨
        ∃ row rest, feed.rows.filter (fun r => pyStartsWith r base) = row :: rest ∧
          dictLookup (zipDict (pySplitOn (pyStrip feed.header) ',')
            (pySplitOn (pyStrip row) ',')) eol_target = none)) ∧
    (∀ row rest s dts,
      feed.rows.filter (fun r => pyStartsWith r base) = row :: rest →
      dictLookup (zipDict (pySplitOn (pyStrip feed.header) ',')
        (pySplitOn (pyStrip row) ',')) eol_target = some s →
      strptimeDistro s = some dts →
      get_base_eol feed base eol_target = .ok dts) := by
  constructor
  · cases hf : feed.rows.filter (fun r => pyStartsWith r base) with
    | nil => simp [get_base_eol, hf]
    | cons row rest =>
      cases hl : dictLookup (zipDict (pySplitOn (pyStrip feed.header) ',')
          (pySplitOn (pyStrip row) ',')) eol_target with
      | none => simp [get_base_eol, hf, hl]
      | some s =>
        cases hp : strptimeDistro s with
        | none => simp [get_base_eol, hf, hl, hp]
        | some d => simp [get_base_eol, hf, hl, hp]
  · intro row rest s dts hf hl hp
    simp [get_base_eol, hf, hl, hp]

/-- C4 witness: a prefix absent from the feed gives not-found; a present
version whose row lacks the eol-esm column gives not-found; a present
version with a well-formed eol value returns normally. -/
theorem C4_witness :
    (∃ msg, get_base_eol
      ⟨"version,codename,series,created,release,eol",
        ["22.04 LTS,Jammy Jellyfish,jammy,2021-10-14,2022-04-21,2027-04-01"]⟩
      "99.99" "eol" = .error (.notFound msg)) ∧
    (∃ msg, get_base_eol
      ⟨"version,codename,series,created,release,eol",
        ["22.04 LTS,Jammy Jellyfish,jammy,2021-10-14,2022-04-21,2027-04-01"]⟩
      "22.04" "eol-esm" = .error (.notFound msg)) ∧
    get_base_eol
      ⟨"version,codename,series,created,release,eol",
        ["22.04 LTS,Jammy Jellyfish,jammy,2021-10-14,2022-04-21,2027-04-01"]⟩
      "22.04" "eol" = .ok ⟨2027, 4, 1, 0, 0, 0⟩ := by
  refine ⟨?_, ?_, ?_⟩
  · exact (C4_notfound_exactly_two_cases
      ⟨"version,codename,series,created,release,eol",
        ["22.04 LTS,Jammy Jellyfish,jammy,2021-10-14,2022-04-21,2027-04-01"]⟩
      "99.99" "eol").1.mpr (Or.inl rfl)
  · exact (C4_notfound_exactly_two_cases
      ⟨"version,codename,series,created,release,eol",
        ["22.04 LTS,Jammy Jellyfish,jammy,2021-10-14,2022-04-21,2027-04-01"]⟩
      "22.04" "eol-esm").1.mpr (Or.inr
        ⟨"22.04 LTS,Jammy Jellyfish,jammy,2021-10-14,2022-04-21,2027-04-01",
          [], rfl, rfl⟩)
  · exact (C4_notfound_exactly_two_cases
      ⟨"version,codename,series,created,release,eol",
        ["22.04 LTS,Jammy Jellyfish,jammy,2021-10-14,2022-04-21,2027-04-01"]⟩
      "22.04" "eol").2
      "22.04 LTS,Jammy Jellyfish,jammy,2021-10-14,2022-04-21,2027-04-01"
      [] "2027-04-01" ⟨2027, 4, 1, 0, 0, 0⟩ rfl rfl rfl

/-- C7: every violation record carries the track name, the base
canonicalized to the form ubuntu:version, and both EOL values rendered in
the date-only distro format, the track EOL losing its time-of-day. -/
theorem C7_violation_record_shape (feed : DistroFeed)
    (track ts v : String) (base : Option String) (r : ViolationRecord)
    (t d : PyDatetime)
    (hres : resolveBaseVersion track base = some v)
    (hbase : get_base_eol feed v "eol" = .ok d)
    (hts : strptimeTrack ts = some t)
    (hr : track_eol_exceeds_base_eol feed track ts base = .ok (some r)) :
    r = { track := track, base := "ubuntu:" ++ v,
          track_eol := strftimeDate t, base_eol := strftimeDate d } ∧
    r.track_eol = strftimeDate ⟨t.year, t.month, t.day, 0, 0, 0⟩ := by
  have heq : track_eol_exceeds_base_eol feed track ts base =
      eolCheckCore feed track ts v := by
    simp [track_eol_exceeds_base_eol, hres]
  rw [heq] at hr
  have h1 := eolCheckCore_ok_some feed track ts v r t d hbase hts hr
  refine ⟨h1, ?_⟩
  rw [h1]
  rfl

/-- C7 witness: the spec example record, with base canonicalized to
ubuntu:22.04 and both dates rendered date-only. -/
theorem C7_witness :
    track_eol_exceeds_base_eol
      ⟨"version,codename,series,created,release,eol",
        ["22.04 LTS,Jammy Jellyfish,jammy,2021-10-14,2022-04-21,2027-04-01"]⟩
      "1.0-22.04" "2030-01-01T00:00:00Z" none =
      .ok (some { track := "1.0-22.04", base := "ubuntu:" ++ "22.04",
                  track_eol := strftimeDate ⟨2030, 1, 1, 0, 0, 0⟩,
                  base_eol := strftimeDate ⟨2027, 4, 1, 0, 0, 0⟩ }) ∧
    strftimeDate ⟨2030, 1, 1, 0, 0, 0⟩ = "2030-01-01" ∧
    strftimeDate ⟨2027, 4, 1, 0, 0, 0⟩ = "2027-04-01" ∧
    "ubuntu:" ++ "22.04" = "ubuntu:22.04" := by
  have h := C7_violation_record_shape
    ⟨"version,codename,series,created,release,eol",
      ["22.04 LTS,Jammy Jellyfish,jammy,2021-10-14,2022-04-21,2027-04-01"]⟩
    "1.0-22.04" "2030-01-01T00:00:00Z" "22.04" none
    ⟨"1.0-22.04", "ubuntu:22.04", "2030-01-01", "2027-04-01"⟩
    ⟨2030, 1, 1, 0, 0, 0⟩ ⟨2027, 4, 1, 0, 0, 0⟩ rfl rfl rfl rfl
  refine ⟨?_, rfl, rfl, rfl⟩
  rw [← h.1]
  rfl

/-- C9: a non-empty explicit base is never validated against the version
pattern: the check runs on the text after the last colon of the base, and
any violation record's base field is that segment prefixed with
"ubuntu:", whatever distribution the base named. -/
theorem C9_explicit_base_unvalidated (feed : DistroFeed)
    (track ts b : String) (hb : b ≠ "") :
    track_eol_exceeds_base_eol feed track ts (some b) =
      eolCheckCore feed track ts ((pySplitOn b ':').getLastD "") ∧
    (∀ r, track_eol_exceeds_base_eol feed track ts (some b) = .ok (some r) →
      r.base = "ubuntu:" ++ (pySplitOn b ':').getLastD "") := by
  have h1 : track_eol_exceeds_base_eol feed track ts (some b) =
      eolCheckCore feed track ts ((pySplitOn b ':').getLastD "") := by
    simp [track_eol_exceeds_base_eol, resolveBaseVersion, hb,
      -List.getLastD_eq_getLast?]
  refine ⟨h1, ?_⟩
  intro r hr
  rw [h1] at hr
  cases hbe : get_base_eol feed ((pySplitOn b ':').getLastD "") "eol" with
  | error e =>
    unfold eolCheckCore at hr
    simp [hbe, -List.getLastD_eq_getLast?] at hr
  | ok d =>
    cases hp : strptimeTrack ts with
    | none =>
      unfold eolCheckCore at hr
      simp [hbe, hp, -List.getLastD_eq_getLast?] at hr
    | some t =>
      rw [eolCheckCore_ok_some feed track ts ((pySplitOn b ':').getLastD "")
        r t d hbe hp hr]

/-- C9 witness: a base naming another distribution, "debian:12", is
looked up by its "12" segment and reported as "ubuntu:12". -/
theorem C9_witness :
    ("debian:12" : String) ≠ "" ∧
    track_eol_exceeds_base_eol
      ⟨"version,codename,series,created,release,eol",
        ["12,Twelve,twelve,2020-01-01,2020-06-01,2030-06-30"]⟩
      "mytrack" "2031-01-01T00:00:00Z" (some "debian:12") =
      .ok (some ⟨"mytrack", "ubuntu:12", "2031-01-01", "2030-06-30"⟩) ∧
    ("ubuntu:12" : String) = "ubuntu:" ++ (pySplitOn "debian:12" ':').getLastD "" := by
  have h := C9_explicit_base_unvalidated
    ⟨"version,codename,series,created,release,eol",
      ["12,Twelve,twelve,2020-01-01,2020-06-01,2030-06-30"]⟩
    "mytrack" "2031-01-01T00:00:00Z" "debian:12" (by decide)
  refine ⟨by decide, rfl, ?_⟩
  exact h.2 ⟨"mytrack", "ubuntu:12", "2031-01-01", "2030-06-30"⟩ rfl

/-- C8: the report generator returns the fixed title and a body whose
newline-separated lines are the advisory line, the three table-header
lines, exactly one table row per input record in input order, then the
trailing advisory line (plus the empty line left by the final newline);
on an empty input the data rows are replaced by a single empty line. -/
theorem C8_report_lines (l : List ViolationRecord)
    (hnl : ∀ r ∈ l, '\n' ∉ (violationRow r).data) :
    (generate_base_eol_exceed_warning l).1 =
      "Found tracks with EOL date exceeding base image\x27s EOL date" ∧
    splitOnChar '\n' (generate_base_eol_exceed_warning l).2.data =
      ["Following tracks have an EOL date that exceeds the base image\x27s EOL date:".data,
       "| Track | Base | Track EOL Date | Base EOL Date |".data,
       "|-------|------|----------------|---------------|".data] ++
      (if l = [] then [([] : List Char)]
        else l.map (fun r => (violationRow r).data)) ++
      ["Please check the EOL date of the base image and the track.".data,
       ([] : List Char)] := by
  refine ⟨rfl, ?_⟩
  have hb : (generate_base_eol_exceed_warning l).2.data =
      "Following tracks have an EOL date that exceeds the base image\x27s EOL date:".data ++
        '\n' :: ("| Track | Base | Track EOL Date | Base EOL Date |".data ++
        '\n' :: ("|-------|------|----------------|---------------|".data ++
        '\n' :: ((joinWith "\n" (l.map violationRow)).data ++
        '\n' :: ("Please check the EOL date of the base image and the track.".data ++
        ['\n'])))) := by
    show (("Following tracks have an EOL date that exceeds the base image\x27s EOL date:\n" : String) ++
      "| Track | Base | Track EOL Date | Base EOL Date |\n" ++
      "|-------|------|----------------|---------------|\n" ++
      joinWith "\n" (l.map violationRow) ++
      "\nPlease check the EOL date of the base image and the track.\n").data = _
    rw [String.data_append, String.data_append, String.data_append,
      String.data_append]
    rw [show ("Following tracks have an EOL date that exceeds the base image\x27s EOL date:\n" : String).data =
        "Following tracks have an EOL date that exceeds the base image\x27s EOL date:".data ++ ['\n'] from rfl,
      show ("| Track | Base | Track EOL Date | Base EOL Date |\n" : String).data =
        "| Track | Base | Track EOL Date | Base EOL Date |".data ++ ['\n'] from rfl,
      show ("|-------|------|----------------|---------------|\n" : String).data =
        "|-------|------|----------------|---------------|".data ++ ['\n'] from rfl,
      show ("\nPlease check the EOL date of the base image and the track.\n" : String).data =
        '\n' :: ("Please check the EOL date of the base image and the track.".data ++ ['\n']) from rfl]
    simp [List.append_assoc]
  rw [hb, splitOnChar_append_sep _ _ _ (by decide),
    splitOnChar_append_sep _ _ _ (by decide),
    splitOnChar_append_sep _ _ _ (by decide)]
  by_cases hl : l = []
  · subst hl
    rw [show (joinWith "\n" (List.map violationRow ([] : List ViolationRecord))).data =
      ([] : List Char) from rfl]
    rw [List.nil_append, splitOnChar_cons_self,
      splitOnChar_append_sep _ _ _ (by decide)]
    rfl
  · rw [splitOnChar_join _ (l.map violationRow) (by simpa using hl)
      (by intro r hr
          rcases List.mem_map.mp hr with ⟨v, hv, rfl⟩
          exact hnl v hv),
      splitOnChar_append_sep _ _ _ (by decide)]
    rw [if_neg hl, List.map_map,
      show splitOnChar '\n' ([] : List Char) = [[]] from rfl]
    simp only [List.cons_append, List.nil_append, List.append_assoc,
      Function.comp_def]

/-- C8 witness: two records are rendered as exactly two data rows, in
input order, between the header lines and the advisory line. -/
theorem C8_witness :
    (generate_base_eol_exceed_warning
      [⟨"1.0-22.04", "ubuntu:22.04", "2030-01-01", "2027-04-01"⟩,
       ⟨"2.0-20.04", "ubuntu:20.04", "2031-01-01", "2025-05-29"⟩]).1 =
      "Found tracks with EOL date exceeding base image\x27s EOL date" ∧
    splitOnChar '\n' (generate_base_eol_exceed_warning
      [⟨"1.0-22.04", "ubuntu:22.04", "2030-01-01", "2027-04-01"⟩,
       ⟨"2.0-20.04", "ubuntu:20.04", "2031-01-01", "2025-05-29"⟩]).2.data =
      ["Following tracks have an EOL date that exceeds the base image\x27s EOL date:".data,
       "| Track | Base | Track EOL Date | Base EOL Date |".data,
       "|-------|------|----------------|---------------|".data] ++
      (if ([⟨"1.0-22.04", "ubuntu:22.04", "2030-01-01", "2027-04-01"⟩,
            ⟨"2.0-20.04", "ubuntu:20.04", "2031-01-01", "2025-05-29"⟩] :
            List ViolationRecord) = [] then [([] : List Char)]
        else [⟨"1.0-22.04", "ubuntu:22.04", "2030-01-01", "2027-04-01"⟩,
              ⟨"2.0-20.04", "ubuntu:20.04", "2031-01-01", "2025-05-29"⟩].map
          (fun r => (violationRow r).data)) ++
      ["Please check the EOL date of the base image and the track.".data,
       ([] : List Char)] :=
  C8_report_lines
    [⟨"1.0-22.04", "ubuntu:22.04", "2030-01-01", "2027-04-01"⟩,
     ⟨"2.0-20.04", "ubuntu:20.04", "2031-01-01", "2025-05-29"⟩]
    (by decide)
